import Mathlib

/-
Verification of the acfshell job-execution service
(src/acfshell/script_runner.hpp, script_iface.hpp, acf_shell_iface.hpp).

The development shallowly embeds the job lifecycle of the service:

JobModel   — the per-job view of scrrunner::ScriptRunner (script_runner.hpp) and
             the timeout timer of scrrunner::ScriptIface (script_iface.hpp):
             the detached execute() coroutine, cancel_script(), invokeCallback(),
             remove(), and the one-shot timeout timer.  A job run is the fold of
             event-loop dispatches (events) over the job state; each event
             branch mirrors the corresponding C++ code path line by line.
JobModel.ShellModel — scrrunner::AcfShellIface (acf_shell_iface.hpp): the
             scriptIfaces registry, ensureMaxActiveScripts(), addToActive(),
             runScript(), removeFromActive() and the bus handlers.
JobModel.DumpModel  — ScriptRunner::monitorDumpProgress() (script_runner.hpp):
             the properties-changed callback over the dumpProgressMatches map.
JobModel.HashModel  — ScriptRunner::makeHash() / AcfShellIface::makeScriptId():
             timestamp salting, hex truncation; the SHA-256 digest itself is an
             OpenSSL (external-library) primitive and is a function parameter.
-/

namespace JobModel

/-- Error-code values the sources pass to completion callbacks:
`boost::system::error_code{}` (the default, success) at natural completion and
in `cancel_script`, and `boost::asio::error::operation_aborted` on failures. -/
inductive ECode where
  | success
  | operationAborted
  deriving DecidableEq, Repr

/-- Content written to the job output file `<id>.out` by `execute`
(script_runner.hpp): the streamed stdout/stderr bytes, then, for a non-zero
exit code, the line "Script execution failed with exit code: N". -/
inductive OutLine where
  | scriptOutput
  | exitCodeDiag (code : Int)
  deriving DecidableEq, Repr

/-- Position of the detached `execute` coroutine of one job:
not yet started (co_spawn posted), suspended in `writeResult`, suspended in
`startDump`, or returned. -/
inductive Phase where
  | created
  | streaming
  | dumping
  | finished
  deriving DecidableEq, Repr

/-- Parameters of one job as held by `ScriptIface::Data` (script_iface.hpp):
the timeout in seconds (0 means unbounded) and the dump flag. -/
structure JobParams where
  timeoutSeconds : Nat
  dumpNeeded : Bool
  deriving DecidableEq, Repr

/-- Observable state of one job inside the runner.
`inTable` is membership of the job id in `ScriptRunner::script_cache`;
`eraseEffective` counts erasures that found an entry; `callbackCalls` records
every invocation of the real completion callback in order;
`badFunctionCall` records the catch block of `execute` invoking its local
`callback` variable after that variable was moved into the `ScriptEntry`
(on mainstream standard libraries the moved-from `std::function` is empty, so
the call raises `std::bad_function_call` and the real callback never runs);
`timerArmed` / `cancelledByTimer` track the `ScriptIface` timeout timer. -/
structure JobState where
  phase : Phase
  inTable : Bool
  everInserted : Bool
  eraseEffective : Nat
  callbackCalls : List ECode
  badFunctionCall : Bool
  procTerminated : Bool
  timerArmed : Bool
  cancelledByTimer : Bool
  dirRemoved : Bool
  outFile : List OutLine
  deriving DecidableEq, Repr

/-- An actual invocation of the stored completion callback.  In the assembled
service the callback is `AcfShellIface::removeFromActive`, whose erasure
destroys the `ScriptIface`, whose destructor cancels the timeout timer
(script_iface.hpp), hence `timerArmed := false`. -/
def fireRealCallback (ec : ECode) (s : JobState) : JobState :=
  { s with callbackCalls := s.callbackCalls ++ [ec], timerArmed := false }

/-- `ScriptRunner::invokeCallback` (script_runner.hpp): look the id up in
`script_cache`; if absent, return; otherwise call the stored callback. -/
def invokeCallback (ec : ECode) (s : JobState) : JobState :=
  if s.inTable then fireRealCallback ec s else s

/-- `ScriptRunner::remove` (script_runner.hpp): `script_cache.erase(id)`.
Erasing an absent key is a no-op; an effective erasure is counted. -/
def removeJob (s : JobState) : JobState :=
  if s.inTable then
    { s with inTable := false, eraseEffective := s.eraseEffective + 1 }
  else s

/-- `ScriptRunner::cancel_script` (script_runner.hpp): find the entry; if
absent return false; otherwise terminate the child, call the stored callback
with `boost::system::error_code{}` (the default, success value), erase the
entry and return true. -/
def cancel_script (s : JobState) : JobState × Bool :=
  if s.inTable then
    (removeJob (fireRealCallback ECode.success { s with procTerminated := true }), true)
  else (s, false)

/-- `ScriptIface::startTimeout` (script_iface.hpp): if `data.timeout == 0`
return immediately; otherwise arm the one-shot steady timer. -/
def startTimeout (timeoutSeconds : Nat) (s : JobState) : JobState :=
  if timeoutSeconds = 0 then s else { s with timerArmed := true }

/-- The timer completion handler of `ScriptIface::startTimeout`
(script_iface.hpp): fires only while armed (the `ScriptIface` destructor
cancels the timer, delivering `operation_aborted`, on which the handler
returns); on a genuine fire it logs and calls `cancel()`, which delegates to
`ScriptRunner::cancel_script`. -/
def timerFireStep (s : JobState) : JobState :=
  if s.timerArmed then
    let r := cancel_script { s with timerArmed := false }
    if r.2 then { r.1 with cancelledByTimer := true } else r.1
  else s

/-- Event-loop dispatches affecting one job: the detached `execute` coroutine
starting (the spawn either succeeds or fails), `writeResult` completing (with
or without an exception escaping the remainder of the try block),
`startDump` completing, an external cancel request, and the timeout timer
firing. -/
inductive Event where
  | startExec (spawnOk : Bool)
  | streamDone (exc : Bool) (exitCode : Int)
  | dumpDone
  | cancelReq
  | timerFire
  deriving DecidableEq, Repr

/-- One event-loop dispatch, mirroring `ScriptRunner::execute`,
`ScriptRunner::cancel_script` and the timer handler (script_runner.hpp lines
251-301, 350-362; script_iface.hpp lines 87-103).

* `startExec`: if the child fails to start, `execute` calls the (still valid)
  local callback with `operation_aborted` and co_returns without ever
  inserting into `script_cache`; otherwise it emplaces the entry (moving the
  local callback into it) and suspends in `writeResult`.
* `streamDone` with an exception: the catch block logs and invokes the local
  `callback` variable, which was moved from at the emplace, and does NOT call
  `remove(hash)` — the entry stays in `script_cache`.
* `streamDone` without exception: output is written to `<id>.out`; on a
  non-zero exit code the diagnostic line is appended; then either
  `startDump` is awaited (`dumpNeeded`) or the working directory is removed,
  after which `invokeCallback(error_code{}, hash)` and `remove(hash)` run.
* `dumpDone`: the tail of `execute` after `startDump`:
  `invokeCallback` then `remove` (the directory is left for the dump monitor).
* `cancelReq`: `ScriptIface::cancel` delegating to `cancel_script`.
* `timerFire`: the timeout path. -/
def step (p : JobParams) (s : JobState) : Event → JobState
  | Event.startExec spawnOk =>
      if s.phase = Phase.created then
        if spawnOk then
          { s with phase := Phase.streaming, inTable := true, everInserted := true }
        else
          { fireRealCallback ECode.operationAborted s with phase := Phase.finished }
      else s
  | Event.streamDone exc exitCode =>
      if s.phase = Phase.streaming then
        if exc then
          { s with phase := Phase.finished, badFunctionCall := true }
        else
          let s1 := { s with outFile := s.outFile ++ [OutLine.scriptOutput] }
          let s2 :=
            if exitCode = 0 then s1
            else { s1 with outFile := s1.outFile ++ [OutLine.exitCodeDiag exitCode] }
          if p.dumpNeeded then { s2 with phase := Phase.dumping }
          else
            removeJob (invokeCallback ECode.success
              { s2 with dirRemoved := true, phase := Phase.finished })
      else s
  | Event.dumpDone =>
      if s.phase = Phase.dumping then
        removeJob (invokeCallback ECode.success { s with phase := Phase.finished })
      else s
  | Event.cancelReq => (cancel_script s).1
  | Event.timerFire => timerFireStep s

/-- Job state right after `AcfShellIface::runScript` succeeded: the coroutine
is posted but not started, the table is empty of this id, and
`startTimeout` ran (acf_shell_iface.hpp lines 188-201). -/
def startState (p : JobParams) : JobState :=
  startTimeout p.timeoutSeconds
    { phase := Phase.created, inTable := false, everInserted := false,
      eraseEffective := 0, callbackCalls := [], badFunctionCall := false,
      procTerminated := false, timerArmed := false, cancelledByTimer := false,
      dirRemoved := false, outFile := [] }

/-- A whole job run: folding the dispatched events over the start state. -/
def runTrace (p : JobParams) (evs : List Event) : JobState :=
  evs.foldl (step p) (startState p)

/-- Synchronous result of `ScriptRunner::run_script` (script_runner.hpp lines
315-337): if the script file cannot be created it returns false before
spawning anything; otherwise it writes the file, posts the detached `execute`
coroutine, and returns true unconditionally — the spawn itself has not
happened yet when the caller sees the return value. -/
structure RunScriptResult where
  retval : Bool
  fileWritten : Bool
  coroutinePosted : Bool
  deriving DecidableEq, Repr

/-- `ScriptRunner::run_script`, synchronous part. -/
def run_script (writeOk : Bool) : RunScriptResult :=
  if writeOk then
    { retval := true, fileWritten := true, coroutinePosted := true }
  else
    { retval := false, fileWritten := false, coroutinePosted := false }

namespace ShellModel

/-- One entry of `AcfShellIface::scriptIfaces` (acf_shell_iface.hpp): a
`ScriptIface` carrying `ScriptIface::Data` (script, hash id, timeout, dump
flag). -/
structure ShellJob where
  script : String
  id : String
  timeout : Nat
  dumpNeeded : Bool
  deriving DecidableEq, Repr

/-- Controller-level state: `scriptIfaces` in insertion order (front is
oldest), the key set of `ScriptRunner::script_cache`, and the ids on which
`ScriptIface::cancel` has been invoked (instrumentation recording that a
cancel was requested, in request order). -/
structure ShellState where
  scriptIfaces : List ShellJob
  cache : List String
  cancelRequests : List String
  deriving DecidableEq, Repr

/-- `AcfShellIface::removeFromActive` (acf_shell_iface.hpp lines 252-265):
find the first interface whose `data.id` matches; if found erase it and
return true, else return false.  This is the completion callback handed to
`ScriptRunner::run_script`. -/
def removeFromActive (st : ShellState) (scriptId : String) : ShellState × Bool :=
  if st.scriptIfaces.any (fun j => j.id == scriptId) then
    ({ st with scriptIfaces := st.scriptIfaces.eraseP (fun j => j.id == scriptId) }, true)
  else (st, false)

/-- `ScriptRunner::cancel_script` as seen from the controller: when the id is
in `script_cache` the child is terminated, the stored callback (which is
`removeFromActive`) is invoked, and the cache entry is erased; otherwise it
returns false (script_runner.hpp lines 350-362). -/
def cancelScriptS (st : ShellState) (id : String) : ShellState × Bool :=
  if st.cache.contains id then
    let st1 := (removeFromActive st id).1
    ({ st1 with cache := st1.cache.erase id }, true)
  else (st, false)

/-- `ScriptIface::cancel` (script_iface.hpp lines 77-86): delegates to
`cancel_script` on its own id; the invocation is recorded. -/
def ifaceCancel (st : ShellState) (id : String) : ShellState × Bool :=
  cancelScriptS { st with cancelRequests := st.cancelRequests ++ [id] } id

/-- The constant `maxActiveScripts` of `AcfShellIface::ensureMaxActiveScripts`
(acf_shell_iface.hpp line 114). -/
def maxActiveScripts : Nat := 1

/-- Body of the while loop of `ensureMaxActiveScripts`: while the registry
size reaches the maximum, move the front (oldest) interface out, erase it
from the registry, and call its `cancel`.  The fuel is the initial registry
length, which bounds the iteration count since every iteration shrinks the
registry. -/
def ensureLoop : Nat → ShellState → ShellState
  | 0, st => st
  | fuel + 1, st =>
      if maxActiveScripts ≤ st.scriptIfaces.length then
        match st.scriptIfaces with
        | [] => st
        | oldest :: rest =>
            ensureLoop fuel (ifaceCancel { st with scriptIfaces := rest } oldest.id).1
      else st

/-- `AcfShellIface::ensureMaxActiveScripts` (acf_shell_iface.hpp lines
111-123). -/
def ensureMaxActiveScripts (st : ShellState) : ShellState :=
  ensureLoop st.scriptIfaces.length st

/-- `AcfShellIface::runScript` (acf_shell_iface.hpp lines 188-201): call
`ScriptRunner::run_script`; when it fails return false without registering;
otherwise start the timeout and push the interface to the back of the
registry.  `run_script` touches `script_cache` only from the posted
coroutine, so the cache is unchanged here. -/
def runScriptS (st : ShellState) (j : ShellJob) (writeOk : Bool) : ShellState × Bool :=
  if writeOk then
    ({ st with scriptIfaces := st.scriptIfaces ++ [j] }, true)
  else (st, false)

/-- Outcome of the `start` handler as seen by its caller: a boolean return
or an escaped exception. -/
inductive StartOutcome where
  | returned (b : Bool)
  | raisedBadOptionalAccess
  deriving DecidableEq, Repr

/-- `AcfShellIface::addToActive` (acf_shell_iface.hpp lines 150-174).
`hashRes` is the result of `makeScriptId`; `ctorOk` is whether the
`ScriptIface` construction throws (caught, returning false); `writeOk` is
whether the script file write in `run_script` succeeds.  The statement
`LOG_DEBUG("Starting script: {}", scriptId.value())` evaluates
`scriptId.value()` BEFORE the `if (!scriptId)` null check (and `Logger::log`
receives the already-formatted string, so the log level gates nothing), so an
empty optional raises `std::bad_optional_access` out of the handler. -/
def addToActive (st : ShellState) (script : String) (timeout : Nat)
    (dumpNeeded : Bool) (hashRes : Option String) (ctorOk writeOk : Bool) :
    ShellState × StartOutcome :=
  match hashRes with
  | none => (st, StartOutcome.raisedBadOptionalAccess)
  | some id =>
      if ctorOk then
        let r := runScriptS st ⟨script, id, timeout, dumpNeeded⟩ writeOk
        (r.1, StartOutcome.returned r.2)
      else (st, StartOutcome.returned false)

/-- The registered D-Bus `start` method (acf_shell_iface.hpp lines 94-99):
`ensureMaxActiveScripts()` then `addToActive(...)`. -/
def startHandler (st : ShellState) (script : String) (timeout : Nat)
    (dumpNeeded : Bool) (hashRes : Option String) (ctorOk writeOk : Bool) :
    ShellState × StartOutcome :=
  addToActive (ensureMaxActiveScripts st) script timeout dumpNeeded hashRes ctorOk writeOk

/-- The registered D-Bus `cancel` method (acf_shell_iface.hpp lines 100-107):
look the interface up by id; if found call its `cancel`, else return false. -/
def cancelHandler (st : ShellState) (id : String) : ShellState × Bool :=
  if st.scriptIfaces.any (fun j => j.id == id) then ifaceCancel st id
  else (st, false)

/-- The posted `execute` coroutine beginning, controller view
(script_runner.hpp lines 255-271): a successful spawn emplaces the id into
`script_cache`; a failed spawn invokes the callback (`removeFromActive`) with
`operation_aborted` and never inserts. -/
def execBeginS (st : ShellState) (id : String) (spawnOk : Bool) : ShellState :=
  if spawnOk then
    if st.cache.contains id then st else { st with cache := st.cache ++ [id] }
  else (removeFromActive st id).1

/-- Natural completion of `execute`, controller view (script_runner.hpp lines
293-294): `invokeCallback` (which calls `removeFromActive` when the entry is
present) then `remove`. -/
def completeS (st : ShellState) (id : String) : ShellState :=
  let st1 := if st.cache.contains id then (removeFromActive st id).1 else st
  { st1 with cache := st1.cache.erase id }

/-- Event-loop dispatches touching the controller registry. -/
inductive ShellOp where
  | start (script : String) (timeout : Nat) (dumpNeeded : Bool)
      (hashRes : Option String) (ctorOk writeOk : Bool)
  | cancelCall (id : String)
  | execBegin (id : String) (spawnOk : Bool)
  | execComplete (id : String)
  | timerExpire (id : String)
  deriving DecidableEq, Repr

/-- One controller dispatch. -/
def shellStep (st : ShellState) : ShellOp → ShellState
  | ShellOp.start script t d h c w => (startHandler st script t d h c w).1
  | ShellOp.cancelCall id => (cancelHandler st id).1
  | ShellOp.execBegin id ok => execBeginS st id ok
  | ShellOp.execComplete id => completeS st id
  | ShellOp.timerExpire id => (ifaceCancel st id).1

/-- Controller state at service start: empty registry, empty cache. -/
def shellStart : ShellState := ⟨[], [], []⟩

/-- A controller run: folding dispatched operations over the start state. -/
def runShell (ops : List ShellOp) : ShellState :=
  ops.foldl shellStep shellStart

end ShellModel

namespace DumpModel

/-- The status value tested by `monitorDumpProgress` (script_runner.hpp line
178). -/
def completedStatus : String :=
  "xyz.openbmc_project.Common.Progress.OperationStatus.Completed"

/-- State touched by the dump-progress machinery: whether
`std::filesystem::remove_all(scriptDir(id))` has run, and the key list of
`ScriptRunner::dumpProgressMatches` (subscriptions keyed by bundle id). -/
structure MonState where
  dirRemoved : Bool
  matchKeys : List String
  deriving DecidableEq, Repr

/-- The subscription registration at the end of `monitorDumpProgress`
(script_runner.hpp lines 185-187): `dumpProgressMatches.emplace(dumpId, ...)`
— keyed by the bundle id, not the job id; emplace with an existing key
changes nothing. -/
def monitorDumpProgress (dumpId : String) (st : MonState) : MonState :=
  if st.matchKeys.contains dumpId then st
  else { st with matchKeys := st.matchKeys ++ [dumpId] }

/-- The properties-changed callback installed by `monitorDumpProgress`
(script_runner.hpp lines 160-184).  `changed` is the decoded
`changedProperties` map (name, string value).  The source builds
`changedProperties | views::filter(p.first == "Status")` but DISCARDS the
resulting view; the loop below then ranges over ALL changed properties and
compares each property's VALUE with the completed-status string; on a match
the job's working directory is removed and the subscription keyed by the
bundle id is erased. -/
def propCallback (dumpId : String) (changed : List (String × String))
    (st : MonState) : MonState :=
  changed.foldl
    (fun acc kv =>
      if kv.2 == completedStatus then
        { acc with dirRemoved := true, matchKeys := acc.matchKeys.erase dumpId }
      else acc)
    st

end DumpModel

namespace HashModel

/-- The truncation bound `maxHashLen` of `ScriptRunner::makeHash`
(script_runner.hpp line 95). -/
def maxHashLen : Nat := 16

/-- The tail of `ScriptRunner::makeHash` (script_runner.hpp lines 86-100):
the hex string of the digest is truncated to at most 16 characters.  The
digest itself is computed by the OpenSSL EVP SHA-256 primitive, an external
library; it enters the model as the function argument `digest`, assumed only
to be a function of the input bytes (the EVP failure branches return none
upstream and are covered by the controller model's `hashRes`). -/
def makeHash (digest : String → String) (script : String) : String :=
  String.mk ((digest script).data.take maxHashLen)

/-- The salted string of `AcfShellIface::makeScriptId` (acf_shell_iface.hpp
lines 124-132): `std::to_string(now_time_t) + "_" + script`. -/
def saltedScript (now : Int) (script : String) : String :=
  toString now ++ "_" ++ script

/-- `AcfShellIface::makeScriptId`: hash of the timestamp-salted script. -/
def makeScriptId (digest : String → String) (now : Int) (script : String) : String :=
  makeHash digest (saltedScript now script)

end HashModel

/-
Theorems.
-/

/-- Neither branch of `step` ever arms the timer or sets the timer-cancel
flag: only `startTimeout` arms.  Hence both stay off along a run once off. -/
lemma step_timer_off (p : JobParams) (e : Event) (s : JobState)
    (h1 : s.timerArmed = false) (h2 : s.cancelledByTimer = false) :
    (step p s e).timerArmed = false ∧ (step p s e).cancelledByTimer = false := by
  cases e <;>
    simp only [step, timerFireStep, cancel_script, invokeCallback,
      fireRealCallback, removeJob] <;>
    split_ifs <;> simp_all

/-- Timer-off is preserved along any event sequence. -/
lemma trace_timer_off (p : JobParams) (evs : List Event) :
    ∀ s : JobState, s.timerArmed = false → s.cancelledByTimer = false →
      (evs.foldl (step p) s).timerArmed = false ∧
      (evs.foldl (step p) s).cancelledByTimer = false := by
  induction evs with
  | nil => intro s h1 h2; exact ⟨h1, h2⟩
  | cons e tl ih =>
      intro s h1 h2
      have h := step_timer_off p e s h1 h2
      simpa [List.foldl] using ih (step p s e) h.1 h.2

/-- Claim C1: end-condition accounting of the completion callback and the
`script_cache` erasure.  Natural completion (with and without a dump),
explicit cancel (with the terminated coroutine still resuming afterwards) and
timeout each invoke the real callback exactly once and erase the entry
exactly once.  In the error end condition in which an exception escapes the
streaming/cleanup portion of `execute`, however, the catch block calls the
moved-from local `callback` (so the real callback is invoked zero times) and
never calls `remove`, so the entry is erased zero times and stays in the
table — refuting the exactly-once guarantee for that end condition. -/
theorem job_end_paths_callback_and_erase :
    (runTrace ⟨0, false⟩ [Event.startExec true, Event.streamDone false 0]).callbackCalls
        = [ECode.success] ∧
    (runTrace ⟨0, false⟩ [Event.startExec true, Event.streamDone false 0]).eraseEffective = 1 ∧
    (runTrace ⟨0, true⟩
        [Event.startExec true, Event.streamDone false 0, Event.dumpDone]).callbackCalls
        = [ECode.success] ∧
    (runTrace ⟨0, true⟩
        [Event.startExec true, Event.streamDone false 0, Event.dumpDone]).eraseEffective = 1 ∧
    (runTrace ⟨0, false⟩
        [Event.startExec true, Event.cancelReq, Event.streamDone false 143]).callbackCalls
        = [ECode.success] ∧
    (runTrace ⟨0, false⟩
        [Event.startExec true, Event.cancelReq, Event.streamDone false 143]).eraseEffective = 1 ∧
    (runTrace ⟨9, false⟩
        [Event.startExec true, Event.timerFire, Event.streamDone false 143]).callbackCalls
        = [ECode.success] ∧
    (runTrace ⟨9, false⟩
        [Event.startExec true, Event.timerFire, Event.streamDone false 143]).eraseEffective = 1 ∧
    (runTrace ⟨0, false⟩ [Event.startExec true, Event.streamDone true 0]).callbackCalls = [] ∧
    (runTrace ⟨0, false⟩ [Event.startExec true, Event.streamDone true 0]).eraseEffective = 0 ∧
    (runTrace ⟨0, false⟩ [Event.startExec true, Event.streamDone true 0]).inTable = true ∧
    (runTrace ⟨0, false⟩ [Event.startExec true, Event.streamDone true 0]).badFunctionCall
        = true := by
  decide

/-- Claim C6: with an exception escaping during streaming or cleanup after
the job was entered into `script_cache`, the catch block of `execute` leaves
the table entry in place (`remove` is not called) and invokes the moved-from
local callback instead of the stored one, so no abort indication reaches the
real completion callback and the entry leaks until the runner is destroyed. -/
theorem exception_catch_leaks_table_entry :
    (runTrace ⟨0, true⟩ [Event.startExec true, Event.streamDone true 3]).phase
        = Phase.finished ∧
    (runTrace ⟨0, true⟩ [Event.startExec true, Event.streamDone true 3]).everInserted = true ∧
    (runTrace ⟨0, true⟩ [Event.startExec true, Event.streamDone true 3]).inTable = true ∧
    (runTrace ⟨0, true⟩ [Event.startExec true, Event.streamDone true 3]).eraseEffective = 0 ∧
    (runTrace ⟨0, true⟩ [Event.startExec true, Event.streamDone true 3]).callbackCalls = [] ∧
    (runTrace ⟨0, true⟩ [Event.startExec true, Event.streamDone true 3]).badFunctionCall
        = true := by
  decide

/-- Claim C3, counterexample: with the script file written successfully and
the child process failing to spawn, `run_script` has already returned true —
the spawn failure is reported through the completion callback with
`operation_aborted`, not through the synchronous return value, so the
claimed "false iff write fails or spawn fails" equivalence is refuted. -/
theorem run_script_true_on_spawn_failure :
    (run_script true).retval = true ∧
    (runTrace ⟨0, false⟩ [Event.startExec false]).callbackCalls
        = [ECode.operationAborted] ∧
    (runTrace ⟨0, false⟩ [Event.startExec false]).phase = Phase.finished := by
  decide

/-- Claim C3 as amended: `run_script` returns false synchronously if and only
if the script-file write fails; in every other case it has posted the
coroutine and returned true, and a later spawn failure is reported through
the completion callback with `operation_aborted`. -/
theorem run_script_false_iff_write_fails :
    (∀ writeOk, ((run_script writeOk).retval = false ↔ writeOk = false)) ∧
    (∀ writeOk, (run_script writeOk).coroutinePosted = writeOk) ∧
    (∀ p : JobParams,
      (runTrace p [Event.startExec false]).callbackCalls = [ECode.operationAborted] ∧
      (runTrace p [Event.startExec false]).inTable = false) := by
  refine ⟨fun w => by cases w <;> simp [run_script],
    fun w => by cases w <;> simp [run_script], fun p => ?_⟩
  rcases p with ⟨t, d⟩
  by_cases ht : t = 0 <;>
    simp [runTrace, startState, startTimeout, step, fireRealCallback, ht]

/-- Claim C4, counterexample: the explicit-cancel path and the timeout path
both pass the default (success) error code to the completion callback — the
very value natural completion passes — so the error-code argument does not
distinguish cancellation from natural successful completion. -/
theorem cancel_code_equals_completion_code :
    (runTrace ⟨0, false⟩ [Event.startExec true, Event.cancelReq]).callbackCalls
        = [ECode.success] ∧
    (runTrace ⟨7, false⟩ [Event.startExec true, Event.timerFire]).callbackCalls
        = [ECode.success] ∧
    (runTrace ⟨0, false⟩ [Event.startExec true, Event.streamDone false 0]).callbackCalls
        = [ECode.success] := by
  decide

/-- Claim C4 as amended: whenever a job in the table is cancelled — by an
explicit request or by the timer firing — `cancel_script` invokes the stored
callback with `boost::system::error_code{}`, the default success value, which
is exactly the value the natural-completion path passes; cancellation is not
distinguishable through the error-code argument. -/
theorem cancel_passes_default_error_code (p : JobParams) (s : JobState)
    (hin : s.inTable = true) :
    (step p s Event.cancelReq).callbackCalls = s.callbackCalls ++ [ECode.success] ∧
    (s.timerArmed = true →
      (step p s Event.timerFire).callbackCalls = s.callbackCalls ++ [ECode.success]) ∧
    (s.phase = Phase.streaming → p.dumpNeeded = false →
      (step p s (Event.streamDone false 0)).callbackCalls
        = s.callbackCalls ++ [ECode.success]) := by
  refine ⟨?_, fun ht => ?_, fun hp hd => ?_⟩
  · simp [step, cancel_script, hin, fireRealCallback, removeJob]
  · simp [step, timerFireStep, ht, cancel_script, hin, fireRealCallback, removeJob]
  · simp [step, hp, hd, invokeCallback, hin, fireRealCallback, removeJob]

/-- Witness for `cancel_passes_default_error_code` at a concrete armed,
in-table state. -/
theorem cancel_passes_default_error_code_witness :
    (step (⟨4, false⟩ : JobParams) (runTrace ⟨4, false⟩ [Event.startExec true])
        Event.cancelReq).callbackCalls
      = (runTrace ⟨4, false⟩ [Event.startExec true]).callbackCalls ++ [ECode.success] ∧
    (step (⟨4, false⟩ : JobParams) (runTrace ⟨4, false⟩ [Event.startExec true])
        Event.timerFire).callbackCalls
      = (runTrace ⟨4, false⟩ [Event.startExec true]).callbackCalls ++ [ECode.success] :=
  ⟨(cancel_passes_default_error_code ⟨4, false⟩ _ (by decide)).1,
   (cancel_passes_default_error_code ⟨4, false⟩ _ (by decide)).2.1 (by decide)⟩

/-- Claim C9, counterexample: a job with exit code 2 and no dump requested
gets the diagnostic line appended and a success callback, but the working
directory — the captured output file included — is removed by `execute`
before the callback fires, so the output file is not retained. -/
theorem nonzero_exit_dir_removed_before_callback :
    (runTrace ⟨0, false⟩ [Event.startExec true, Event.streamDone false 2]).callbackCalls
        = [ECode.success] ∧
    (runTrace ⟨0, false⟩ [Event.startExec true, Event.streamDone false 2]).outFile
        = [OutLine.scriptOutput, OutLine.exitCodeDiag 2] ∧
    (runTrace ⟨0, false⟩ [Event.startExec true, Event.streamDone false 2]).dirRemoved
        = true := by
  decide

/-- Claim C9 as amended: a non-zero exit code gets the diagnostic line
appended to the output file and the job still completes with a success
callback; the output file is retained past completion only when a dump was
requested — with `dumpNeeded` false the whole working directory, output file
included, is removed before the callback. -/
theorem nonzero_exit_success_and_conditional_retention (e : Int) (he : e ≠ 0) :
    ((runTrace ⟨0, false⟩ [Event.startExec true, Event.streamDone false e]).callbackCalls
        = [ECode.success] ∧
     (runTrace ⟨0, false⟩ [Event.startExec true, Event.streamDone false e]).outFile
        = [OutLine.scriptOutput, OutLine.exitCodeDiag e] ∧
     (runTrace ⟨0, false⟩ [Event.startExec true, Event.streamDone false e]).dirRemoved
        = true) ∧
    ((runTrace ⟨0, true⟩
        [Event.startExec true, Event.streamDone false e, Event.dumpDone]).callbackCalls
        = [ECode.success] ∧
     (runTrace ⟨0, true⟩
        [Event.startExec true, Event.streamDone false e, Event.dumpDone]).outFile
        = [OutLine.scriptOutput, OutLine.exitCodeDiag e] ∧
     (runTrace ⟨0, true⟩
        [Event.startExec true, Event.streamDone false e, Event.dumpDone]).dirRemoved
        = false) := by
  constructor <;>
    simp [runTrace, startState, startTimeout, step, invokeCallback,
      fireRealCallback, removeJob, he]

/-- Witness for `nonzero_exit_success_and_conditional_retention` at exit
code 2. -/
theorem nonzero_exit_success_and_conditional_retention_witness :
    (runTrace ⟨0, false⟩ [Event.startExec true, Event.streamDone false 2]).dirRemoved
        = true ∧
    (runTrace ⟨0, true⟩
        [Event.startExec true, Event.streamDone false 2, Event.dumpDone]).dirRemoved
        = false :=
  ⟨(nonzero_exit_success_and_conditional_retention 2 (by decide)).1.2.2,
   (nonzero_exit_success_and_conditional_retention 2 (by decide)).2.2.2⟩

/-- Claim C7: `startTimeout` with timeout 0 is a no-op and such a job is
never auto-cancelled through the timer path along any event sequence; with a
positive timeout the one-shot timer is armed, and its firing on a live job
performs the cancellation: the process is terminated, the callback fires
(with the default code), the entry is erased, and the timer is disarmed. -/
theorem startTimeout_zero_noop_and_timer_cancels :
    (∀ s : JobState, startTimeout 0 s = s) ∧
    (∀ p : JobParams, p.timeoutSeconds = 0 →
      ∀ evs, (runTrace p evs).cancelledByTimer = false) ∧
    (∀ n : Nat, 0 < n → ∀ s : JobState, (startTimeout n s).timerArmed = true) ∧
    (∀ (p : JobParams) (s : JobState), s.timerArmed = true → s.inTable = true →
      (step p s Event.timerFire).inTable = false ∧
      (step p s Event.timerFire).procTerminated = true ∧
      (step p s Event.timerFire).callbackCalls = s.callbackCalls ++ [ECode.success] ∧
      (step p s Event.timerFire).cancelledByTimer = true ∧
      (step p s Event.timerFire).timerArmed = false) := by
  refine ⟨fun s => by simp [startTimeout], fun p hp evs => ?_,
    fun n hn s => by simp [startTimeout, Nat.ne_of_gt hn], fun p s ht hin => ?_⟩
  · exact (trace_timer_off p evs (startState p)
      (by simp [startState, startTimeout, hp])
      (by simp [startState, startTimeout, hp])).2
  · simp [step, timerFireStep, ht, cancel_script, hin, fireRealCallback, removeJob]

/-- Witness for `startTimeout_zero_noop_and_timer_cancels` at concrete
states: an unbounded job is untouched by the timer path, and a positive
timeout fires into a cancellation. -/
theorem startTimeout_zero_noop_and_timer_cancels_witness :
    startTimeout 0 (startState ⟨0, false⟩) = startState ⟨0, false⟩ ∧
    (runTrace ⟨0, false⟩ [Event.startExec true, Event.timerFire]).cancelledByTimer
        = false ∧
    (startTimeout 3 (startState ⟨0, false⟩)).timerArmed = true ∧
    (step (⟨3, false⟩ : JobParams) (runTrace ⟨3, false⟩ [Event.startExec true])
        Event.timerFire).cancelledByTimer = true :=
  ⟨startTimeout_zero_noop_and_timer_cancels.1 _,
   startTimeout_zero_noop_and_timer_cancels.2.1 ⟨0, false⟩ rfl
     [Event.startExec true, Event.timerFire],
   startTimeout_zero_noop_and_timer_cancels.2.2.1 3 (by decide) _,
   ((startTimeout_zero_noop_and_timer_cancels.2.2.2 ⟨3, false⟩
     (runTrace ⟨3, false⟩ [Event.startExec true]) (by decide) (by decide)).2.2.2.1)⟩

namespace ShellModel

/-- `removeFromActive` never grows the registry. -/
lemma removeFromActive_ifaces_le (st : ShellState) (id : String) :
    ((removeFromActive st id).1).scriptIfaces.length ≤ st.scriptIfaces.length := by
  unfold removeFromActive
  split_ifs <;> simp [List.length_eraseP_le st.scriptIfaces]

/-- `cancel_script` never grows the registry. -/
lemma cancelScriptS_ifaces_le (st : ShellState) (id : String) :
    ((cancelScriptS st id).1).scriptIfaces.length ≤ st.scriptIfaces.length := by
  unfold cancelScriptS
  split_ifs
  · simpa using removeFromActive_ifaces_le st id
  · exact le_rfl

/-- `ScriptIface::cancel` never grows the registry. -/
lemma ifaceCancel_ifaces_le (st : ShellState) (id : String) :
    ((ifaceCancel st id).1).scriptIfaces.length ≤ st.scriptIfaces.length := by
  unfold ifaceCancel
  simpa using cancelScriptS_ifaces_le { st with cancelRequests := st.cancelRequests ++ [id] } id

/-- The eviction loop of `ensureMaxActiveScripts`, given enough fuel, drains
the registry below the maximum — with the source's maximum of one, to
emptiness. -/
lemma ensureLoop_ifaces_zero :
    ∀ (fuel : Nat) (st : ShellState), st.scriptIfaces.length ≤ fuel →
      (ensureLoop fuel st).scriptIfaces.length = 0 := by
  intro fuel
  induction fuel with
  | zero =>
      intro st h
      simpa [ensureLoop] using Nat.le_zero.mp h
  | succ n ih =>
      intro st h
      rcases hm : st.scriptIfaces with _ | ⟨oldest, rest⟩
      · simp [ensureLoop, hm, maxActiveScripts]
      · have hr : rest.length + 1 ≤ n + 1 := by rw [hm] at h; simpa using h
        simp only [ensureLoop, hm, maxActiveScripts, List.length_cons]
        split_ifs with hc
        · exact ih _ (le_trans (ifaceCancel_ifaces_le _ oldest.id)
            (by show rest.length ≤ n; omega))
        · omega

/-- `ensureMaxActiveScripts` leaves the registry empty (the maximum is one,
so admission always starts from an empty registry). -/
lemma ensureMax_ifaces_zero (st : ShellState) :
    (ensureMaxActiveScripts st).scriptIfaces.length = 0 :=
  ensureLoop_ifaces_zero st.scriptIfaces.length st le_rfl

/-- The `start` handler leaves at most `maxActiveScripts` registered
interfaces, whatever state it starts from. -/
lemma startHandler_ifaces_le (st : ShellState) (script : String) (t : Nat)
    (d : Bool) (hashRes : Option String) (c w : Bool) :
    ((startHandler st script t d hashRes c w).1).scriptIfaces.length
      ≤ maxActiveScripts := by
  have h0 := ensureMax_ifaces_zero st
  rcases hashRes with _ | id
  · show (ensureMaxActiveScripts st).scriptIfaces.length ≤ maxActiveScripts
    rw [h0]; exact Nat.zero_le _
  · cases c with
    | false =>
        show (ensureMaxActiveScripts st).scriptIfaces.length ≤ maxActiveScripts
        rw [h0]; exact Nat.zero_le _
    | true =>
        cases w with
        | false =>
            show (ensureMaxActiveScripts st).scriptIfaces.length ≤ maxActiveScripts
            rw [h0]; exact Nat.zero_le _
        | true =>
            show ((ensureMaxActiveScripts st).scriptIfaces
                ++ [(⟨script, id, t, d⟩ : ShellJob)]).length ≤ maxActiveScripts
            rw [List.length_append, h0]
            simp [maxActiveScripts]

/-- Every controller dispatch preserves the registry bound. -/
lemma shellStep_ifaces_le (st : ShellState) (op : ShellOp)
    (h : st.scriptIfaces.length ≤ maxActiveScripts) :
    (shellStep st op).scriptIfaces.length ≤ maxActiveScripts := by
  cases op with
  | start script t d hr c w => exact startHandler_ifaces_le st script t d hr c w
  | cancelCall id =>
      simp only [shellStep, cancelHandler]
      split_ifs
      · exact le_trans (ifaceCancel_ifaces_le st id) h
      · exact h
  | execBegin id ok =>
      simp only [shellStep, execBeginS]
      split_ifs
      · exact h
      · exact h
      · exact le_trans (removeFromActive_ifaces_le st id) h
  | execComplete id =>
      simp only [shellStep, completeS]
      split_ifs
      · exact le_trans (removeFromActive_ifaces_le st id) h
      · exact h
  | timerExpire id => exact le_trans (ifaceCancel_ifaces_le st id) h

/-- The registry bound holds along any dispatch sequence. -/
lemma foldl_ifaces_le (ops : List ShellOp) :
    ∀ st : ShellState, st.scriptIfaces.length ≤ maxActiveScripts →
      (ops.foldl shellStep st).scriptIfaces.length ≤ maxActiveScripts := by
  induction ops with
  | nil => intro st h; exact h
  | cons op tl ih => intro st h; exact ih _ (shellStep_ifaces_le st op h)

/-- Claim C2: along every dispatch sequence from service start the registry
holds at most `maxActiveScripts` (one) interface — `ensureMaxActiveScripts`
only ever shrinks it and runs before any admission — and a `start` arriving
at capacity first removes the oldest (front) entry from the registry and
invokes its `cancel`, and only then admits the new job, which is then the
sole registry entry. -/
theorem registry_bounded_and_oldest_evicted :
    (∀ ops : List ShellOp, (runShell ops).scriptIfaces.length ≤ maxActiveScripts) ∧
    (∀ (st : ShellState) (j : ShellJob) (script : String) (t : Nat) (d : Bool)
        (id : String), st.scriptIfaces = [j] →
      (startHandler st script t d (some id) true true).1.scriptIfaces
          = [⟨script, id, t, d⟩] ∧
      (startHandler st script t d (some id) true true).1.cancelRequests
          = st.cancelRequests ++ [j.id] ∧
      (startHandler st script t d (some id) true true).2
          = StartOutcome.returned true) := by
  constructor
  · intro ops
    exact foldl_ifaces_le ops shellStart (by simp [shellStart, maxActiveScripts])
  · intro st j script t d id hst
    rcases st with ⟨ifaces, cache, creq⟩
    simp only at hst
    subst hst
    simp only [startHandler, ensureMaxActiveScripts, ensureLoop, ifaceCancel,
      cancelScriptS, removeFromActive, addToActive, runScriptS, maxActiveScripts]
    split_ifs <;> simp_all

/-- Witness for `registry_bounded_and_oldest_evicted`: a concrete at-capacity
registry whose occupant is evicted and cancelled by the next admission. -/
theorem registry_bounded_and_oldest_evicted_witness :
    (runShell [ShellOp.start "a" 0 false (some "i1") true true]).scriptIfaces.length
        ≤ maxActiveScripts ∧
    (startHandler ⟨[⟨"s", "j1", 5, true⟩], ["j1"], []⟩ "b" 0 false
        (some "i2") true true).1.scriptIfaces = [⟨"b", "i2", 0, false⟩] ∧
    (startHandler ⟨[⟨"s", "j1", 5, true⟩], ["j1"], []⟩ "b" 0 false
        (some "i2") true true).1.cancelRequests = [] ++ ["j1"] ∧
    (startHandler ⟨[⟨"s", "j1", 5, true⟩], ["j1"], []⟩ "b" 0 false
        (some "i2") true true).2 = StartOutcome.returned true :=
  ⟨registry_bounded_and_oldest_evicted.1 [ShellOp.start "a" 0 false (some "i1") true true],
   (registry_bounded_and_oldest_evicted.2 ⟨[⟨"s", "j1", 5, true⟩], ["j1"], []⟩
      ⟨"s", "j1", 5, true⟩ "b" 0 false "i2" rfl).1,
   (registry_bounded_and_oldest_evicted.2 ⟨[⟨"s", "j1", 5, true⟩], ["j1"], []⟩
      ⟨"s", "j1", 5, true⟩ "b" 0 false "i2" rfl).2.1,
   (registry_bounded_and_oldest_evicted.2 ⟨[⟨"s", "j1", 5, true⟩], ["j1"], []⟩
      ⟨"s", "j1", 5, true⟩ "b" 0 false "i2" rfl).2.2⟩

/-- Claim C5: when `makeScriptId` fails (an empty optional), `addToActive`
evaluates `scriptId.value()` inside the `LOG_DEBUG` argument list before the
`if (!scriptId)` null check, so the handler raises
`std::bad_optional_access` instead of returning false; no registration has
happened by then (the state is exactly the post-admission-control state). -/
theorem hash_failure_raises_bad_optional_access (st : ShellState)
    (script : String) (t : Nat) (d c w : Bool) :
    (startHandler st script t d none c w).2
        = StartOutcome.raisedBadOptionalAccess ∧
    (startHandler st script t d none c w).1 = ensureMaxActiveScripts st := by
  exact ⟨rfl, rfl⟩

end ShellModel

namespace DumpModel

/-- A notification with no property value equal to the completed-status
string changes nothing. -/
lemma propCallback_no_match (dumpId : String) :
    ∀ (changed : List (String × String)) (st : MonState),
      (∀ kv ∈ changed, kv.2 ≠ completedStatus) →
      propCallback dumpId changed st = st := by
  intro changed
  induction changed with
  | nil => intro st _; rfl
  | cons kv tl ih =>
      intro st h
      have hkv : ¬(kv.2 == completedStatus) = true := by
        simpa using h kv (List.mem_cons_self kv tl)
      simp only [propCallback, List.foldl_cons, hkv, if_false, Bool.false_eq_true]
      exact ih st fun x hx => h x (List.mem_cons_of_mem kv hx)

/-- Once the directory-removed flag is set, later properties keep it set. -/
lemma propCallback_dir_mono (dumpId : String) :
    ∀ (changed : List (String × String)) (st : MonState),
      st.dirRemoved = true → (propCallback dumpId changed st).dirRemoved = true := by
  intro changed
  induction changed with
  | nil => intro st h; exact h
  | cons kv tl ih =>
      intro st h
      simp only [propCallback, List.foldl_cons] at ih ⊢
      split_ifs
      · exact ih _ rfl
      · exact ih _ h

/-- The callback never adds subscription keys, so an absent bundle id stays
absent. -/
lemma propCallback_not_mem (dumpId : String) :
    ∀ (changed : List (String × String)) (st : MonState),
      dumpId ∉ st.matchKeys → dumpId ∉ (propCallback dumpId changed st).matchKeys := by
  intro changed
  induction changed with
  | nil => intro st h; exact h
  | cons kv tl ih =>
      intro st h
      simp only [propCallback, List.foldl_cons] at ih ⊢
      split_ifs
      · exact ih _ fun hc => h (List.mem_of_mem_erase hc)
      · exact ih _ h

/-- The callback preserves distinctness of the subscription keys. -/
lemma propCallback_nodup (dumpId : String) :
    ∀ (changed : List (String × String)) (st : MonState),
      st.matchKeys.Nodup → (propCallback dumpId changed st).matchKeys.Nodup := by
  intro changed
  induction changed with
  | nil => intro st h; exact h
  | cons kv tl ih =>
      intro st h
      simp only [propCallback, List.foldl_cons] at ih ⊢
      split_ifs
      · exact ih _ (h.erase dumpId)
      · exact ih _ h

/-- The callback erases at most the `dumpId` key: every other key survives. -/
lemma propCallback_mem_other (dumpId k : String) (hk : k ≠ dumpId) :
    ∀ (changed : List (String × String)) (st : MonState),
      k ∈ st.matchKeys → k ∈ (propCallback dumpId changed st).matchKeys := by
  intro changed
  induction changed with
  | nil => intro st h; exact h
  | cons kv tl ih =>
      intro st h
      simp only [propCallback, List.foldl_cons] at ih ⊢
      split_ifs
      · exact ih _ ((List.mem_erase_of_ne hk).mpr h)
      · exact ih _ h

/-- With distinct subscription keys, any property whose value equals the
completed-status string removes the directory and drops the `dumpId`
subscription. -/
lemma propCallback_match (dumpId : String) :
    ∀ (changed : List (String × String)) (st : MonState), st.matchKeys.Nodup →
      (∃ kv ∈ changed, kv.2 = completedStatus) →
      (propCallback dumpId changed st).dirRemoved = true ∧
      dumpId ∉ (propCallback dumpId changed st).matchKeys := by
  intro changed
  induction changed with
  | nil =>
      intro st _ h
      exact absurd h (by simp)
  | cons kv tl ih =>
      intro st hn h
      by_cases hkv : (kv.2 == completedStatus) = true
      · simp only [propCallback, List.foldl_cons, hkv, if_true]
        refine ⟨propCallback_dir_mono dumpId tl _ rfl, propCallback_not_mem dumpId tl _ ?_⟩
        exact hn.not_mem_erase
      · have hh : ∃ x ∈ tl, x.2 = completedStatus := by
          rcases h with ⟨x, hx, hx2⟩
          rcases List.mem_cons.mp hx with rfl | hxtl
          · exact absurd (by simpa using hx2) hkv
          · exact ⟨x, hxtl, hx2⟩
        simp only [propCallback, List.foldl_cons, hkv, if_false, Bool.false_eq_true]
        exact ih st hn hh

/-- Claim C8, counterexample: a notification that carries NO `Status`
property at all, only some other property whose value happens to equal the
completed-status string, still removes the working directory and drops the
subscription — the view filtering on the `Status` key is built but its result
is discarded, so the loop tests every property value. -/
theorem completed_value_without_status_key_triggers :
    propCallback "7" [("ExtraProp", completedStatus)] ⟨false, ["7"]⟩
        = ⟨true, []⟩ ∧
    List.lookup "Status" [("ExtraProp", completedStatus)] = none := by
  decide

/-- Claim C8 as amended: a dump-progress notification removes the job's
working directory and cancels the subscription — which is keyed by the
bundle id, other keys surviving untouched — if and only if SOME changed
property's value equals the completed-status string (the `Status`-key filter
is discarded); a notification with no such value causes no state change. -/
theorem dump_progress_any_completed_value (dumpId : String)
    (changed : List (String × String)) (st : MonState)
    (hn : st.matchKeys.Nodup) :
    ((∃ kv ∈ changed, kv.2 = completedStatus) →
      (propCallback dumpId changed st).dirRemoved = true ∧
      dumpId ∉ (propCallback dumpId changed st).matchKeys) ∧
    ((∀ kv ∈ changed, kv.2 ≠ completedStatus) →
      propCallback dumpId changed st = st) ∧
    (∀ k ∈ st.matchKeys, k ≠ dumpId →
      k ∈ (propCallback dumpId changed st).matchKeys) := by
  refine ⟨fun h => propCallback_match dumpId changed st hn h,
    fun h => propCallback_no_match dumpId changed st h,
    fun k hk hne => propCallback_mem_other dumpId k hne changed st hk⟩

/-- Witness for `dump_progress_any_completed_value`: a completed notification
for bundle "7" removes the directory and only the "7" subscription; a
running-status notification changes nothing. -/
theorem dump_progress_any_completed_value_witness :
    ((propCallback "7" [("Status", completedStatus)] ⟨false, ["7", "8"]⟩).dirRemoved
        = true ∧
      "7" ∉ (propCallback "7" [("Status", completedStatus)] ⟨false, ["7", "8"]⟩).matchKeys) ∧
    propCallback "7" [("Status", "InProgress")] ⟨false, ["7", "8"]⟩
        = ⟨false, ["7", "8"]⟩ ∧
    "8" ∈ (propCallback "7" [("Status", completedStatus)] ⟨false, ["7", "8"]⟩).matchKeys :=
  ⟨(dump_progress_any_completed_value "7" [("Status", completedStatus)]
      ⟨false, ["7", "8"]⟩ (by decide)).1
      ⟨("Status", completedStatus), by simp, rfl⟩,
   (dump_progress_any_completed_value "7" [("Status", "InProgress")]
      ⟨false, ["7", "8"]⟩ (by decide)).2.1 (by decide),
   (dump_progress_any_completed_value "7" [("Status", completedStatus)]
      ⟨false, ["7", "8"]⟩ (by decide)).2.2 "8" (by decide) (by decide)⟩

end DumpModel

namespace HashModel

/-- The repository code alone does not force distinct ids for submissions at
distinct timestamps: with a constant external digest, two submissions of the
same script one second apart produce equal ids.  Whatever uniqueness holds is
inherited entirely from the truncated SHA-256 digest. -/
theorem scriptId_collides_for_constant_digest :
    makeScriptId (fun _ => "00ff00ff00ff00ff") 1 "echo hi"
      = makeScriptId (fun _ => "00ff00ff00ff00ff") 2 "echo hi" := by
  decide

/-- What the repository does contribute: submissions at timestamps with
distinct decimal renderings feed DISTINCT salted strings to the digest, and
distinct ids follow whenever the truncated digest separates those two
inputs. -/
theorem salted_preimages_differ (t1 t2 : Int) (s : String)
    (h : toString t1 ≠ toString t2) :
    saltedScript t1 s ≠ saltedScript t2 s ∧
    (∀ digest : String → String,
      makeHash digest (saltedScript t1 s) ≠ makeHash digest (saltedScript t2 s) →
      makeScriptId digest t1 s ≠ makeScriptId digest t2 s) := by
  constructor
  · intro he
    apply h
    have hd : (saltedScript t1 s).data = (saltedScript t2 s).data := by rw [he]
    simp only [saltedScript, String.data_append] at hd
    have h1 := List.append_cancel_right hd
    exact String.ext (List.append_cancel_right h1)
  · intro digest hd
    exact hd

/-- Witness for `salted_preimages_differ` at timestamps 1 and 2. -/
theorem salted_preimages_differ_witness :
    saltedScript 1 "echo hi" ≠ saltedScript 2 "echo hi" :=
  (salted_preimages_differ 1 2 "echo hi" (by decide)).1

end HashModel

end JobModel
